import Mathlib

/-!
Verification of the physics engines of the Science-School-3D-Simulation
repository: the Ohm's law model (`ohms_law_simulation/simulation/physics.py`,
class `OhmsLawPhysics`) and the vision model
(`vision_simulation/simulation/physics.py`, class `VisionPhysics`).

All numeric state is embedded as exact rationals (ℚ).  Python's float
division raising `ZeroDivisionError` is modelled by an `Option` result
(`none` = the exception); everywhere else the code's own guards keep the
denominators nonzero, so total ℚ division is faithful.
-/

namespace OhmsLaw

/-- State of the `OhmsLawPhysics` class: `_voltage`, `_resistance`,
`_current`, `_power`. -/
structure OhmsLawPhysics where
  voltage : ℚ
  resistance : ℚ
  current : ℚ
  power : ℚ
deriving DecidableEq, Repr

def MIN_VOLTAGE : ℚ := 1
def MAX_VOLTAGE : ℚ := 50
def MIN_RESISTANCE : ℚ := 1
def MAX_RESISTANCE : ℚ := 100
def MIN_SAFE_RESISTANCE : ℚ := 1/10

/-- `_clamp_voltage`: `max(MIN_VOLTAGE, min(MAX_VOLTAGE, voltage))`. -/
def clamp_voltage (v : ℚ) : ℚ := max MIN_VOLTAGE (min MAX_VOLTAGE v)

/-- `_clamp_resistance`: `max(MIN_RESISTANCE, min(MAX_RESISTANCE, resistance))`. -/
def clamp_resistance (r : ℚ) : ℚ := max MIN_RESISTANCE (min MAX_RESISTANCE r)

/-- `_update_calculations`: `safe = max(resistance, 0.1)`,
`current = voltage / safe`, `power = voltage * current`. -/
def update_calculations (s : OhmsLawPhysics) : OhmsLawPhysics :=
  let safe_resistance := max s.resistance MIN_SAFE_RESISTANCE
  let i := s.voltage / safe_resistance
  { s with current := i, power := s.voltage * i }

/-- `__init__(voltage, resistance)`. -/
def init (voltage resistance : ℚ) : OhmsLawPhysics :=
  update_calculations
    { voltage := clamp_voltage voltage
      resistance := clamp_resistance resistance
      current := 0
      power := 0 }

/-- The `voltage` property setter. -/
def set_voltage (s : OhmsLawPhysics) (value : ℚ) : OhmsLawPhysics :=
  update_calculations { s with voltage := clamp_voltage value }

/-- The `resistance` property setter. -/
def set_resistance (s : OhmsLawPhysics) (value : ℚ) : OhmsLawPhysics :=
  update_calculations { s with resistance := clamp_resistance value }

/-- The `PRESETS` class table: name ↦ (voltage, resistance). -/
def PRESETS : List (String × ℚ × ℚ) :=
  [("normal", 12, 10),
   ("high_current", 24, 2),
   ("low_current", 5, 50),
   ("short_circuit", 12, 1/10),
   ("open_circuit", 12, 100)]

/-- `set_preset(name)`: on a known name assigns through the `voltage` and
`resistance` setters and returns `True`; otherwise returns `False` without
touching the state. -/
def set_preset (s : OhmsLawPhysics) (preset_name : String) :
    Bool × OhmsLawPhysics :=
  match PRESETS.lookup preset_name with
  | some p => (true, set_resistance (set_voltage s p.1) p.2)
  | none => (false, s)

/-- `is_dangerous()`: `(True, msg)` when `current > 20.0`, else `(True, msg)`
when `power > 500.0`, else `(False, "")`. -/
def is_dangerous (s : OhmsLawPhysics) : Bool × String :=
  if s.current > 20 then
    (true, ("WARNING: Very high current! Risk of short circuit!"))
  else if s.power > 500 then
    (true, ("WARNING: Very high power dissipation!"))
  else
    (false, (""))

end OhmsLaw

namespace Vision

/-- State of the `VisionPhysics` class: `_near_point`, `_object_distance`,
`_lens_power`, `_age`, `_required_power`. -/
structure VisionPhysics where
  near_point : ℚ
  object_distance : ℚ
  lens_power : ℚ
  age : ℚ
  required_power : ℚ
deriving DecidableEq, Repr

def NORMAL_NEAR_POINT : ℚ := 25
def MIN_NEAR_POINT : ℚ := 10
def MAX_NEAR_POINT : ℚ := 100
def MIN_POWER : ℚ := -10
def MAX_POWER : ℚ := 10

/-- `_clamp_near_point`: `max(MIN_NEAR_POINT, min(MAX_NEAR_POINT, value))`. -/
def clamp_near_point (value : ℚ) : ℚ :=
  max MIN_NEAR_POINT (min MAX_NEAR_POINT value)

/-- `_clamp_distance`: `max(5.0, min(200.0, value))`. -/
def clamp_distance (value : ℚ) : ℚ := max 5 (min 200 value)

/-- The computation of `_calculate_required_power` as a function of the
stored near point: `0` inside the `|near_point - 25| < 0.1` guard, else
`1/v - 1/u` with `v = -near_point/100`, `u = -25/100`.  The guard keeps
`v` away from `0` on every reachable near point (near points are always
≥ 10), so total ℚ division is faithful here. -/
def required_power_calc (near_point : ℚ) : ℚ :=
  if |near_point - NORMAL_NEAR_POINT| < 1/10 then 0
  else
    let v := -near_point / 100
    let u := -NORMAL_NEAR_POINT / 100
    1 / v - 1 / u

/-- `_calculate_required_power` applied to the state. -/
def calculate_required_power (s : VisionPhysics) : VisionPhysics :=
  { s with required_power := required_power_calc s.near_point }

/-- `__init__(near_point, object_distance)`. -/
def init (near_point object_distance : ℚ) : VisionPhysics :=
  calculate_required_power
    { near_point := clamp_near_point near_point
      object_distance := clamp_distance object_distance
      lens_power := 0
      age := 25
      required_power := 0 }

/-- The `near_point` property setter. -/
def set_near_point (s : VisionPhysics) (value : ℚ) : VisionPhysics :=
  calculate_required_power { s with near_point := clamp_near_point value }

/-- The `object_distance` property setter. -/
def set_object_distance (s : VisionPhysics) (value : ℚ) : VisionPhysics :=
  { s with object_distance := clamp_distance value }

/-- The `lens_power` property setter. -/
def set_lens_power (s : VisionPhysics) (value : ℚ) : VisionPhysics :=
  { s with lens_power := max MIN_POWER (min MAX_POWER value) }

/-- The `age` property setter: clamp to `[5, 100]`; above 40, overwrite
`near_point` with `25.0 + ((age - 40)/60) * 30.0` and recompute
`required_power`. -/
def set_age (s : VisionPhysics) (value : ℚ) : VisionPhysics :=
  let a := max 5 (min 100 value)
  let s1 := { s with age := a }
  if a > 40 then
    let age_factor := (a - 40) / 60
    calculate_required_power { s1 with near_point := 25 + age_factor * 30 }
  else s1

/-- The `PRESETS` class table: name ↦ (near_point, age, description). -/
def PRESETS : List (String × ℚ × ℚ × String) :=
  [("normal", (25, 25, ("Normal Vision - Student"))),
   ("mild_myopia", (15, 20, ("Mild Myopia - Young Adult"))),
   ("moderate_myopia", (12, 18, ("Moderate Myopia - Teen"))),
   ("mild_hyperopia", (40, 45, ("Mild Hyperopia - Middle-aged"))),
   ("presbyopia", (50, 60, ("Presbyopia - Elderly")))]

/-- `set_preset(name)`: on a known name assigns `_near_point` and `_age`
directly (no clamp), recomputes `_required_power`, and returns `True`;
otherwise returns `False` without touching the state. -/
def set_preset (s : VisionPhysics) (preset_name : String) :
    Bool × VisionPhysics :=
  match PRESETS.lookup preset_name with
  | some p =>
      (true, calculate_required_power
        { s with near_point := p.1, age := p.2.1 })
  | none => (false, s)

/-- `get_effective_near_point()`.  Python raises `ZeroDivisionError` when the
divisor `f + u` is zero, modelled as `none`; every other path is `some`. -/
def get_effective_near_point (s : VisionPhysics) : Option ℚ :=
  if |s.lens_power| < 1/100 then some s.near_point
  else if |s.lens_power| > 1/100 then
    let focal_length := 1 / s.lens_power
    let u := -NORMAL_NEAR_POINT / 100
    let f := focal_length
    if |f - u| > 1/1000 then
      if f + u = 0 then none
      else
        let v := (f * u) / (f + u)
        let effective_near_point := |v * 100|
        some (min 100 (max 10 effective_near_point))
    else some s.near_point
  else some s.near_point

/-- `get_focus_quality()`: `1.0` when the object sits within 2 cm of the
effective near point, else `max(0, 1 - distance_error/30)`.  Propagates the
possible `ZeroDivisionError` of `get_effective_near_point`. -/
def get_focus_quality (s : VisionPhysics) : Option ℚ :=
  match get_effective_near_point s with
  | none => none
  | some effective_np =>
      if |s.object_distance - effective_np| < 2 then some 1
      else
        let distance_error := |s.object_distance - effective_np|
        let max_blur_distance : ℚ := 30
        some (max 0 (1 - distance_error / max_blur_distance))

end Vision

/-- The Ohm's law invariant on the stored fields: `current = voltage /
resistance` and `power = voltage * current`. -/
def OhmsLaw.ohms_invariant (s : OhmsLaw.OhmsLawPhysics) : Prop :=
  s.current = s.voltage / s.resistance ∧ s.power = s.voltage * s.current

/-- The near-point range invariant `10 ≤ near_point ≤ 100`. -/
def Vision.near_point_in_range (s : Vision.VisionPhysics) : Prop :=
  10 ≤ s.near_point ∧ s.near_point ≤ 100

namespace OhmsLaw

lemma update_calculations_ohms (s : OhmsLawPhysics) (hr : 1 ≤ s.resistance) :
    ohms_invariant (update_calculations s) := by
  have h : max s.resistance MIN_SAFE_RESISTANCE = s.resistance := by
    unfold MIN_SAFE_RESISTANCE
    exact max_eq_left (by linarith)
  unfold ohms_invariant update_calculations
  simp [h]

lemma clamp_resistance_ge_one (r : ℚ) : 1 ≤ clamp_resistance r :=
  le_max_left _ _

lemma set_resistance_ohms (s : OhmsLawPhysics) (r : ℚ) :
    ohms_invariant (set_resistance s r) :=
  update_calculations_ohms _ (clamp_resistance_ge_one r)

/-- C2: after every mutation of `voltage` or `resistance` — the two setters
and any successful preset — the stored fields satisfy
`current = voltage / resistance` and `power = voltage * current`; the
embedding exposes exactly the code's mutators, so `current` and `power`
are never independently settable. -/
theorem ohms_law_invariant_after_mutators (s : OhmsLawPhysics) (x r : ℚ)
    (name : String) (hr : 1 ≤ s.resistance) :
    ohms_invariant (set_voltage s x) ∧
    ohms_invariant (set_resistance s r) ∧
    ((set_preset s name).1 = true → ohms_invariant (set_preset s name).2) := by
  refine ⟨update_calculations_ohms _ hr, set_resistance_ohms s r, ?_⟩
  intro ht
  unfold set_preset at ht ⊢
  cases h : PRESETS.lookup name with
  | none => rw [h] at ht; simp at ht
  | some p => exact set_resistance_ohms _ _

theorem ohms_law_invariant_after_mutators_witness :
    ohms_invariant
      (set_voltage (⟨12, 10, 6/5, 72/5⟩ : OhmsLawPhysics) 24) :=
  (ohms_law_invariant_after_mutators ⟨12, 10, 6/5, 72/5⟩ 24 2 ("normal")
    (by norm_num)).1

/-- C4: the resistance clamp floor is the public minimum 1, not the 0.1
divide guard: any value below 1 stores as 1, and the `short_circuit` preset
(table entry voltage 12, resistance 0.1) stores resistance 1 and current 12. -/
theorem resistance_clamp_floor_spec (s : OhmsLawPhysics) :
    clamp_resistance 0 = 1 ∧
    (∀ r : ℚ, r < 1 → clamp_resistance r = 1) ∧
    PRESETS.lookup ("short_circuit") = some (12, 1/10) ∧
    (set_preset s ("short_circuit")).2.resistance = 1 ∧
    (set_preset s ("short_circuit")).2.current = 12 := by
  have hl : PRESETS.lookup ("short_circuit") = some (12, 1/10) := by rfl
  refine ⟨?_, ?_, hl, ?_, ?_⟩
  · norm_num [clamp_resistance, MIN_RESISTANCE, MAX_RESISTANCE]
  · intro r h
    unfold clamp_resistance MIN_RESISTANCE MAX_RESISTANCE
    have h1 : min (100 : ℚ) r = r := min_eq_right (by linarith)
    rw [h1]
    exact max_eq_left h.le
  · simp only [set_preset, hl]
    norm_num [set_resistance, set_voltage, update_calculations,
      clamp_resistance, clamp_voltage, MIN_RESISTANCE, MAX_RESISTANCE,
      MIN_VOLTAGE, MAX_VOLTAGE, MIN_SAFE_RESISTANCE]
  · simp only [set_preset, hl]
    norm_num [set_resistance, set_voltage, update_calculations,
      clamp_resistance, clamp_voltage, MIN_RESISTANCE, MAX_RESISTANCE,
      MIN_VOLTAGE, MAX_VOLTAGE, MIN_SAFE_RESISTANCE]

theorem resistance_clamp_floor_spec_witness :
    clamp_resistance (1/2) = 1 :=
  (resistance_clamp_floor_spec ⟨12, 10, 6/5, 72/5⟩).2.1 (1/2) (by norm_num)

/-- C5: `is_dangerous` reports danger exactly when `current > 20` or
`power > 500`, with strict inequalities: at the boundaries it is `false`. -/
theorem is_dangerous_strict_iff (s : OhmsLawPhysics) :
    ((is_dangerous s).1 = true ↔ (20 < s.current ∨ 500 < s.power)) ∧
    (s.current ≤ 20 → s.power ≤ 500 → (is_dangerous s).1 = false) := by
  constructor
  · unfold is_dangerous
    split_ifs with h1 h2
    · simpa using Or.inl h1
    · simpa using Or.inr h2
    · simp only [Bool.false_eq_true, false_iff]
      push_neg
      exact ⟨not_lt.mp h1, not_lt.mp h2⟩
  · intro hc hp
    unfold is_dangerous
    split_ifs with h1 h2
    · linarith
    · linarith
    · rfl

theorem is_dangerous_strict_iff_witness :
    (is_dangerous (⟨40, 2, 20, 500⟩ : OhmsLawPhysics)).1 = false :=
  (is_dangerous_strict_iff ⟨40, 2, 20, 500⟩).2 (by norm_num) (by norm_num)

end OhmsLaw

namespace Vision

/-- C1: the claim fails on the code.  The guard compares `|f - u|` but the
division is by `f + u`: at `lens_power = 4` the reachable state has
`f = 1/4`, `u = -1/4`, the guard `|f - u| = 1/2 > 0.001` passes, yet the
denominator `f + u` is exactly `0`, so `get_effective_near_point` raises
`ZeroDivisionError` (modelled as `none`). -/
theorem effective_near_point_guard_gap_at_four :
    (set_lens_power (init 25 25) 4).lens_power = 4 ∧
    1/100 ≤ |(set_lens_power (init 25 25) 4).lens_power| ∧
    |1 / (4:ℚ) - (-NORMAL_NEAR_POINT / 100)| > 1/1000 ∧
    1 / (4:ℚ) + (-NORMAL_NEAR_POINT / 100) = 0 ∧
    get_effective_near_point (set_lens_power (init 25 25) 4) = none := by
  refine ⟨by rfl, ?_, by norm_num [NORMAL_NEAR_POINT, abs_of_pos],
    by norm_num [NORMAL_NEAR_POINT], ?_⟩
  · rw [show (set_lens_power (init 25 25) 4).lens_power = 4 from rfl]
    norm_num
  · rw [show (set_lens_power (init 25 25) 4)
        = (⟨25, 25, 4, 25, 0⟩ : VisionPhysics) from by
      norm_num [set_lens_power, init, calculate_required_power,
        required_power_calc, clamp_near_point, clamp_distance, MIN_POWER,
        MAX_POWER, MIN_NEAR_POINT, MAX_NEAR_POINT, NORMAL_NEAR_POINT]]
    norm_num [get_effective_near_point, NORMAL_NEAR_POINT, abs_of_pos]

/-- C3: `required_power` is `0` exactly when `|near_point - 25| < 0.1`, and
otherwise equals `1/v - 1/u` with `v = -near_point/100`, `u = -0.25`; it is
negative at `near_point = 15` and positive at `near_point = 40`. -/
theorem required_power_characterization (s : VisionPhysics) :
    ((calculate_required_power s).required_power = 0 ↔
      |s.near_point - NORMAL_NEAR_POINT| < 1/10) ∧
    (¬ |s.near_point - NORMAL_NEAR_POINT| < 1/10 →
      (calculate_required_power s).required_power
        = 1 / (-s.near_point / 100) - 1 / (-NORMAL_NEAR_POINT / 100)) ∧
    required_power_calc 15 < 0 ∧
    0 < required_power_calc 40 := by
  have hrw : (calculate_required_power s).required_power
      = required_power_calc s.near_point := rfl
  refine ⟨?_, ?_, by norm_num [required_power_calc, NORMAL_NEAR_POINT],
    by norm_num [required_power_calc, NORMAL_NEAR_POINT]⟩
  · rw [hrw]
    unfold required_power_calc
    split_ifs with h
    · exact iff_of_true rfl h
    · simp only [h, iff_false]
      intro hz
      rcases eq_or_ne s.near_point 0 with h0 | h0
      · rw [h0] at hz
        norm_num [NORMAL_NEAR_POINT] at hz
      · have h25 : s.near_point = 25 := by
          have hN : NORMAL_NEAR_POINT = (25:ℚ) := rfl
          rw [hN] at hz
          field_simp at hz
          linarith
        rw [h25] at h
        norm_num [NORMAL_NEAR_POINT] at h
  · intro h
    rw [hrw]
    unfold required_power_calc
    rw [if_neg h]

theorem required_power_characterization_witness :
    (calculate_required_power (⟨40, 25, 0, 25, 0⟩ : VisionPhysics)).required_power
      = 1 / (-(⟨40, 25, 0, 25, 0⟩ : VisionPhysics).near_point / 100)
        - 1 / (-NORMAL_NEAR_POINT / 100) :=
  (required_power_characterization ⟨40, 25, 0, 25, 0⟩).2.1
    (by norm_num [NORMAL_NEAR_POINT, abs_of_pos])

/-- C7: `set_age` clamps the age to `[5, 100]`; above 40 it overwrites
`near_point` with `25 + ((age - 40)/60) * 30` and recomputes
`required_power`; at 40 or below it leaves `near_point` untouched.
Age 60 yields near point 35, age 30 leaves it unmodified. -/
theorem set_age_spec (s : VisionPhysics) (value : ℚ) :
    (set_age s value).age = max 5 (min 100 value) ∧
    (40 < max 5 (min 100 value) →
      (set_age s value).near_point
        = 25 + ((max 5 (min 100 value) - 40) / 60) * 30 ∧
      (set_age s value).required_power
        = required_power_calc (set_age s value).near_point) ∧
    (max 5 (min 100 value) ≤ 40 →
      (set_age s value).near_point = s.near_point) ∧
    (set_age s 60).near_point = 35 ∧
    (set_age s 30).near_point = s.near_point := by
  refine ⟨?_, ?_, ?_, ?_, ?_⟩
  · simp only [set_age]
    split_ifs <;> rfl
  · intro h
    have hs : set_age s value
        = calculate_required_power
            { s with age := max 5 (min 100 value),
                     near_point
                       := 25 + ((max 5 (min 100 value) - 40) / 60) * 30 } := by
      simp only [set_age]
      rw [if_pos h]
    rw [hs]
    exact ⟨rfl, rfl⟩
  · intro h
    simp only [set_age]
    rw [if_neg (not_lt.mpr h)]
  · norm_num [set_age, calculate_required_power, min_def, max_def]
  · norm_num [set_age, min_def, max_def]

theorem set_age_spec_witness :
    (set_age (⟨25, 25, 0, 25, 0⟩ : VisionPhysics) 60).near_point
      = 25 + ((max 5 (min 100 (60:ℚ)) - 40) / 60) * 30 :=
  ((set_age_spec ⟨25, 25, 0, 25, 0⟩ 60).2.1
    (by norm_num [min_def, max_def])).1

/-- C8: when `get_effective_near_point` returns a value `e`,
`get_focus_quality` is exactly `1` when `|object_distance - e| < 2` (in
particular when they are equal) and `max 0 (1 - |object_distance - e|/30)`
otherwise, linearly decreasing to its floor `0` at a 30 cm gap. -/
theorem focus_quality_formula (s : VisionPhysics) (e : ℚ)
    (h : get_effective_near_point s = some e) :
    get_focus_quality s
      = some (if |s.object_distance - e| < 2 then 1
              else max 0 (1 - |s.object_distance - e| / 30)) ∧
    (s.object_distance = e → get_focus_quality s = some 1) := by
  have hq : get_focus_quality s
      = if |s.object_distance - e| < 2 then some 1
        else some (max 0 (1 - |s.object_distance - e| / 30)) := by
    unfold get_focus_quality
    rw [h]
  constructor
  · rw [hq]
    split_ifs <;> rfl
  · intro he
    rw [hq, he]
    norm_num

theorem focus_quality_formula_witness :
    get_focus_quality (⟨25, 40, 0, 25, 0⟩ : VisionPhysics)
      = some (if |(⟨25, 40, 0, 25, 0⟩ : VisionPhysics).object_distance - 25| < 2
              then 1
              else max 0
                (1 - |(⟨25, 40, 0, 25, 0⟩ : VisionPhysics).object_distance - 25|
                  / 30)) :=
  (focus_quality_formula ⟨25, 40, 0, 25, 0⟩ 25
    (by norm_num [get_effective_near_point])).1

/-- C9 counterexample: at `lens_power = 0.01` exactly, `|lens_power| ≥ 0.01`
holds and the singular-denominator guard passes, yet neither branch of the
code fires (`< 0.01` and `> 0.01` are both false) and
`get_effective_near_point` returns the stored `near_point`, so two states
agreeing on `lens_power` but differing in `near_point` give different
results. -/
theorem effective_near_point_boundary_counterexample :
    (⟨25, 25, 1/100, 25, 0⟩ : VisionPhysics).lens_power
      = (⟨40, 25, 1/100, 25, 0⟩ : VisionPhysics).lens_power ∧
    1/100 ≤ |(⟨25, 25, 1/100, 25, 0⟩ : VisionPhysics).lens_power| ∧
    |1 / (⟨25, 25, 1/100, 25, 0⟩ : VisionPhysics).lens_power
      - (-NORMAL_NEAR_POINT / 100)| > 1/1000 ∧
    get_effective_near_point (⟨25, 25, 1/100, 25, 0⟩ : VisionPhysics)
      ≠ get_effective_near_point (⟨40, 25, 1/100, 25, 0⟩ : VisionPhysics) := by
  refine ⟨rfl, by norm_num [abs_of_pos],
    by norm_num [NORMAL_NEAR_POINT, abs_of_pos], ?_⟩
  have h1 : get_effective_near_point (⟨25, 25, 1/100, 25, 0⟩ : VisionPhysics)
      = some 25 := by
    norm_num [get_effective_near_point, NORMAL_NEAR_POINT, abs_of_pos]
  have h2 : get_effective_near_point (⟨40, 25, 1/100, 25, 0⟩ : VisionPhysics)
      = some 40 := by
    norm_num [get_effective_near_point, NORMAL_NEAR_POINT, abs_of_pos]
  rw [h1, h2]
  norm_num

/-- C9 amended: for two states that agree on `lens_power`, if
`|lens_power|` is STRICTLY greater than `0.01` and the singular-denominator
guard `|f - u| > 0.001` passes, `get_effective_near_point` gives the same
result in both states — the result depends only on `lens_power` and the
fixed 25 cm normal near point. -/
theorem effective_near_point_noninterference (s1 s2 : VisionPhysics)
    (hp : s1.lens_power = s2.lens_power)
    (h1 : 1/100 < |s1.lens_power|)
    (hg : |1 / s1.lens_power - (-NORMAL_NEAR_POINT / 100)| > 1/1000) :
    get_effective_near_point s1 = get_effective_near_point s2 := by
  have hn : ¬ |s1.lens_power| < 1/100 := not_lt.mpr h1.le
  unfold get_effective_near_point
  rw [← hp]
  simp only [if_neg hn, if_pos h1, if_pos hg]

theorem effective_near_point_noninterference_witness :
    get_effective_near_point (⟨25, 25, 2, 25, 0⟩ : VisionPhysics)
      = get_effective_near_point (⟨40, 30, 2, 60, 0⟩ : VisionPhysics) :=
  effective_near_point_noninterference ⟨25, 25, 2, 25, 0⟩ ⟨40, 30, 2, 60, 0⟩
    rfl (by norm_num [abs_of_pos])
    (by norm_num [NORMAL_NEAR_POINT, abs_of_pos])

lemma lookup_PRESETS_bounds (name : String) (p : ℚ × ℚ × String)
    (h : PRESETS.lookup name = some p) : 12 ≤ p.1 ∧ p.1 ≤ 50 := by
  simp only [PRESETS, List.lookup] at h
  repeat' split at h
  all_goals simp_all
  all_goals norm_num [← h]

/-- C10: every operation of the vision model keeps `near_point` in
`[10, 100]`, even though `set_preset` and the age setter assign it without
the clamp: the preset near points all lie in `[12, 50]` and the age formula
yields at most `55` (at age 100). -/
theorem near_point_invariant_preserved (s : VisionPhysics) (v w : ℚ)
    (name : String) (h : near_point_in_range s) :
    near_point_in_range (init v w) ∧
    near_point_in_range (set_near_point s v) ∧
    near_point_in_range (set_object_distance s v) ∧
    near_point_in_range (set_lens_power s v) ∧
    near_point_in_range (set_age s v) ∧
    near_point_in_range (set_preset s name).2 ∧
    (∀ p ∈ PRESETS, 12 ≤ p.2.1 ∧ p.2.1 ≤ 50) ∧
    (∀ a : ℚ, a ≤ 100 → 40 < a → 25 + ((a - 40) / 60) * 30 ≤ 55) := by
  have hrange : ∀ x : ℚ, 10 ≤ clamp_near_point x ∧ clamp_near_point x ≤ 100 := by
    intro x
    unfold clamp_near_point MIN_NEAR_POINT MAX_NEAR_POINT
    exact ⟨le_max_left _ _, max_le (by norm_num) (min_le_left _ _)⟩
  refine ⟨?_, ?_, h, h, ?_, ?_, ?_, ?_⟩
  · exact hrange v
  · exact hrange v
  · simp only [set_age]
    split_ifs with ha
    · have hb : max 5 (min 100 v) ≤ 100 := max_le (by norm_num) (min_le_left _ _)
      refine ⟨?_, ?_⟩
      · show (10:ℚ) ≤ 25 + ((max 5 (min 100 v) - 40) / 60) * 30
        nlinarith
      · show 25 + ((max 5 (min 100 v) - 40) / 60) * 30 ≤ (100:ℚ)
        nlinarith
    · exact h
  · unfold set_preset
    cases hl : PRESETS.lookup name with
    | none => exact h
    | some p =>
        have hb := lookup_PRESETS_bounds name p hl
        refine ⟨?_, ?_⟩
        · show (10:ℚ) ≤ p.1
          linarith [hb.1]
        · show p.1 ≤ (100:ℚ)
          linarith [hb.2]
  · intro p hp
    simp only [PRESETS, List.mem_cons, List.not_mem_nil, or_false] at hp
    rcases hp with rfl | rfl | rfl | rfl | rfl <;> norm_num
  · intro a hle hgt
    nlinarith

theorem near_point_invariant_preserved_witness :
    near_point_in_range (set_age (⟨25, 25, 0, 25, 0⟩ : VisionPhysics) 100) :=
  (near_point_invariant_preserved ⟨25, 25, 0, 25, 0⟩ 100 100 ("x")
    (by norm_num [near_point_in_range])).2.2.2.2.1

end Vision

/-- C6: in both models, `set_preset` with a name missing from the preset
table returns the failure flag and leaves every field of the state
unchanged (no partial mutation), and with a known name it returns success. -/
theorem preset_unknown_name_noop (s : OhmsLaw.OhmsLawPhysics)
    (t : Vision.VisionPhysics) (name : String) :
    (OhmsLaw.PRESETS.lookup name = none →
      OhmsLaw.set_preset s name = (false, s)) ∧
    (∀ p, OhmsLaw.PRESETS.lookup name = some p →
      (OhmsLaw.set_preset s name).1 = true) ∧
    (Vision.PRESETS.lookup name = none →
      Vision.set_preset t name = (false, t)) ∧
    (∀ q, Vision.PRESETS.lookup name = some q →
      (Vision.set_preset t name).1 = true) := by
  refine ⟨?_, ?_, ?_, ?_⟩
  · intro h
    unfold OhmsLaw.set_preset
    rw [h]
  · intro p h
    unfold OhmsLaw.set_preset
    rw [h]
  · intro h
    unfold Vision.set_preset
    rw [h]
  · intro q h
    unfold Vision.set_preset
    rw [h]

theorem preset_unknown_name_noop_witness :
    OhmsLaw.set_preset (⟨12, 10, 6/5, 72/5⟩ : OhmsLaw.OhmsLawPhysics) ("bogus")
      = (false, (⟨12, 10, 6/5, 72/5⟩ : OhmsLaw.OhmsLawPhysics)) ∧
    Vision.set_preset (⟨25, 25, 0, 25, 0⟩ : Vision.VisionPhysics) ("bogus")
      = (false, (⟨25, 25, 0, 25, 0⟩ : Vision.VisionPhysics)) ∧
    (OhmsLaw.set_preset (⟨12, 10, 6/5, 72/5⟩ : OhmsLaw.OhmsLawPhysics)
      ("normal")).1 = true :=
  ⟨(preset_unknown_name_noop ⟨12, 10, 6/5, 72/5⟩ ⟨25, 25, 0, 25, 0⟩
      ("bogus")).1 (by rfl),
   (preset_unknown_name_noop ⟨12, 10, 6/5, 72/5⟩ ⟨25, 25, 0, 25, 0⟩
      ("bogus")).2.2.1 (by rfl),
   (preset_unknown_name_noop ⟨12, 10, 6/5, 72/5⟩ ⟨25, 25, 0, 25, 0⟩
      ("normal")).2.1 (12, 10) (by rfl)⟩
